import Mathlib

/-!
# Verification of the laji-protocols connection-lifecycle engines

Shallow embedding of the `laji-protocols` repository: the shared
Handler/Factory lifecycle contract, the thread-per-listener blocking engine
(`discard-sync.rs`, `daytime-threads.rs`), the single-threaded mio reactor
engine (`discard-mio.rs`), the basic single-listener engine (`lib.rs`) and
the encode-only RakNet ping/pong module (`rakping.rs`).

I/O is modelled by oracles: every fallible OS interaction (accept,
`peer_addr`, `local_addr`, `recv_from`, `try_clone`, `poll`) is an input of
type `Except IOErr _` supplied to the embedded function, and the embedded
function returns the sequence of observable events (handler construction,
lifecycle hooks, stream operations, error-queue sends) it would perform,
together with its `io::Result` value.
-/

deriving instance DecidableEq for Except

namespace Laji

/-- A socket address, abstracted to an opaque pair (the engines only move
addresses around, never inspect them). -/
structure SocketAddr where
  ip : Nat
  port : Nat
deriving DecidableEq, Repr

/-- An `std::io::Error`, identified by its kind: `WouldBlock` is singled out
because both engines pattern-match on it; every other kind is opaque. -/
inductive IOErr
| wouldBlock
| fatal (code : Nat)
deriving DecidableEq, Repr

/-- Oracle for one accepted `TcpStream`: the results its `peer_addr()` and
`local_addr()` calls would return. -/
structure StreamOracle where
  peerAddr : Except IOErr SocketAddr
  localAddr : Except IOErr SocketAddr
deriving DecidableEq, Repr

/-- `Handshake` of the discard engines (`lib.rs`, `discard-sync.rs`,
`discard-mio.rs`): peer and local address of an accepted stream. -/
structure Handshake where
  peer_addr : SocketAddr
  local_addr : SocketAddr
deriving DecidableEq, Repr

/-- Observable events of a discard-engine execution: handler construction,
lifecycle hooks, operations performed on the accepted stream, and sends to
the shared error queue.  `sRead`/`sWrite` are in the alphabet so the absence
of stream reads/writes is expressible; the embedded code never emits them. -/
inductive DEvent
| connectionMade
| onOpen (shake : Handshake)
| onClose
| getPeerAddr
| getLocalAddr
| sRead
| sWrite
| sDrop
| errSent (e : IOErr)
deriving DecidableEq, Repr

/-- `Handshake::read_stream` (identical in `lib.rs`, `discard-sync.rs` and
`discard-mio.rs`): query `peer_addr()?` then `local_addr()?`; returns the
stream operations performed and the result. -/
def readStream (ts : StreamOracle) : List DEvent × Except IOErr Handshake :=
  match ts.peerAddr with
  | .error e => ([.getPeerAddr], .error e)
  | .ok p =>
    match ts.localAddr with
    | .error e => ([.getPeerAddr, .getLocalAddr], .error e)
    | .ok l => ([.getPeerAddr, .getLocalAddr], .ok ⟨p, l⟩)

namespace DiscardSync

/-- `process_one_stream` of `discard-sync.rs`: `connection_made()` is called
first (before the accept result is examined), then `stream?`, then
`on_open(read_stream?)`, `drop(stream)`, `on_close()`. -/
def process_one_stream (stream : Except IOErr StreamOracle) :
    List DEvent × Except IOErr Unit :=
  let cm : List DEvent := [.connectionMade]
  match stream with
  | .error e => (cm, .error e)
  | .ok ts =>
    match readStream ts with
    | (ops, .error e) => (cm ++ ops, .error e)
    | (ops, .ok hs) => (cm ++ ops ++ [.onOpen hs, .sDrop, .onClose], .ok ())

/-- One worker thread of `LajiDiscard::run` in `discard-sync.rs`: for each
item of `listener.incoming()`, run `process_one_stream`; on error, send the
error once to the shared queue and continue with the next item. -/
def workerLoop : List (Except IOErr StreamOracle) → List DEvent
| [] => []
| s :: rest =>
  match process_one_stream s with
  | (tr, .error e) => tr ++ [.errSent e] ++ workerLoop rest
  | (tr, .ok _) => tr ++ workerLoop rest

/-- `Builder` of `discard-sync.rs`: the accumulated bound listeners
(listeners identified by opaque ids). -/
structure Builder where
  tcp : List Nat
deriving DecidableEq, Repr

/-- `Builder::bind` of `discard-sync.rs`: `TcpListener::bind(addr)?` is the
oracle argument; on success the listener is pushed, on failure the error
propagates and no builder value exists. -/
def Builder.bind (b : Builder) (bindResult : Except IOErr Nat) :
    Except IOErr Builder :=
  match bindResult with
  | .error e => .error e
  | .ok l => .ok ⟨b.tcp ++ [l]⟩

/-- `LajiDiscard` of `discard-sync.rs` after `build`: listeners and (modelled
implicitly) the factory. -/
structure LajiDiscard where
  tcp : List Nat
deriving DecidableEq, Repr

/-- `Builder::build` of `discard-sync.rs`: moves the accumulated listeners
into the engine. -/
def Builder.build (b : Builder) : LajiDiscard := ⟨b.tcp⟩

/-- The caller-visible outcome of `LajiDiscard::run` in `discard-sync.rs`:
`while let Ok(err) = err_rx.recv() { return Err(err); } Ok(())` — the first
error received on the shared queue is returned; the queue's order of
arrival is the oracle. -/
def runWait : List IOErr → Except IOErr Unit
| [] => .ok ()
| e :: _ => .error e

/-- `run` together with the spawned workers: the source contains no `join`,
`stop` or any channel back to the workers, so the workers' states are
returned unchanged alongside the result of the queue wait. -/
def runOutcome (workers : List Nat) (errQueue : List IOErr) :
    (Except IOErr Unit) × List Nat :=
  (runWait errQueue, workers)

end DiscardSync

namespace DiscardMio

/-- `process_one_stream` of `discard-mio.rs`: called only with a stream that
`accept` returned `Ok`; `connection_made()`, then `on_open(read_stream?)`,
`drop(stream)`, `on_close()`. -/
def process_one_stream (ts : StreamOracle) : List DEvent × Except IOErr Unit :=
  let cm : List DEvent := [.connectionMade]
  match readStream ts with
  | (ops, .error e) => (cm ++ ops, .error e)
  | (ops, .ok hs) => (cm ++ ops ++ [.onOpen hs, .sDrop, .onClose], .ok ())

/-- The accept-drain loop of `LajiDiscard::run` in `discard-mio.rs`, run on
one ready listener: `accept` results are the oracle list consumed in order;
`Ok` streams are processed synchronously, a `WouldBlock` error breaks the
loop, any other error returns it from `run`. -/
def drainAccepts : List (Except IOErr StreamOracle) → List DEvent × Except IOErr Unit
| [] => ([], .ok ())
| .error IOErr.wouldBlock :: _ => ([], .ok ())
| .error e :: _ => ([], .error e)
| .ok ts :: rest =>
  match process_one_stream ts with
  | (tr, .error e) => (tr, .error e)
  | (tr, .ok _) =>
    let (tr2, r2) := drainAccepts rest
    (tr ++ tr2, r2)

/-- The event-dispatch of one poll round in `LajiDiscard::run`: for each
event token in order, `self.listeners.get(token)` — tokens are slab indices,
so the registry is indexed positionally; an unknown token is ignored; a
resolved listener is drained; a fatal drain error returns immediately
(remaining events are not processed). `scripts` gives each listener's
accept results for this round. -/
def processEvents (scripts : List (List (Except IOErr StreamOracle))) :
    List Nat → List DEvent × Except IOErr Unit
| [] => ([], .ok ())
| tok :: rest =>
  match scripts[tok]? with
  | none => processEvents scripts rest
  | some accepts =>
    match drainAccepts accepts with
    | (tr, .error e) => (tr, .error e)
    | (tr, .ok _) =>
      let (tr2, r2) := processEvents scripts rest
      (tr ++ tr2, r2)

/-- One round of the outer loop of `LajiDiscard::run`: the result of
`poll.poll(&mut events, None)?` (the token batch, or an error) plus each
registered listener's accept script for the round. -/
structure PollRound where
  pollResult : Except IOErr (List Nat)
  scripts : List (List (Except IOErr StreamOracle))

/-- The outer loop of `LajiDiscard::run` in `discard-mio.rs` over a finite
script of poll rounds: a poll error propagates immediately; a fatal error
during event processing propagates immediately; otherwise the loop polls
again.  (The real loop never exits normally; an exhausted script models
cutting the execution off while it blocks in `poll`.) -/
def runLoop : List PollRound → List DEvent × Except IOErr Unit
| [] => ([], .ok ())
| round :: rest =>
  match round.pollResult with
  | .error e => ([], .error e)
  | .ok events =>
    match processEvents round.scripts events with
    | (tr, .error e) => (tr, .error e)
    | (tr, .ok _) =>
      let (tr2, r2) := runLoop rest
      (tr ++ tr2, r2)

/-- `Builder` of `discard-mio.rs`. -/
structure Builder where
  tcp : List Nat
deriving DecidableEq, Repr

/-- `Builder::bind` of `discard-mio.rs`: `TcpListener::bind(addr)?` then
`from_std(..)?` is the oracle; on failure the error propagates and no
builder value exists; on success the listener is pushed. -/
def Builder.bind (b : Builder) (bindResult : Except IOErr Nat) :
    Except IOErr Builder :=
  match bindResult with
  | .error e => .error e
  | .ok l => .ok ⟨b.tcp ++ [l]⟩

/-- `LajiDiscard::from_tcp` in `discard-mio.rs`: each listener is inserted
into a fresh slab via `vacant_entry`, so tokens are assigned `0, 1, 2, …` in
list order and the token-indexed registry is exactly the positional list of
listeners. -/
def from_tcp (tcp : List Nat) : List Nat := tcp

end DiscardMio

namespace LibDiscard

/-- `LajiDiscard::run` of `lib.rs`: for each item of `self.tcp.incoming()`,
`connection_made()` is called before the accept result is examined; an
accept error or a handshake error aborts the whole run via `?`; otherwise
`on_open`, `drop(stream)`, `on_close` and the next iteration. -/
def run : List (Except IOErr StreamOracle) → List DEvent × Except IOErr Unit
| [] => ([], .ok ())
| stream :: rest =>
  let cm : List DEvent := [.connectionMade]
  match stream with
  | .error e => (cm, .error e)
  | .ok ts =>
    match readStream ts with
    | (ops, .error e) => (cm ++ ops, .error e)
    | (ops, .ok hs) =>
      let (tr, r) := run rest
      (cm ++ ops ++ [.onOpen hs, .sDrop, .onClose] ++ tr, r)

end LibDiscard

namespace Daytime

/-- `Handshake` of `daytime-threads.rs`: TCP carries peer and local address,
UDP carries only the datagram's origin address. -/
inductive Handshake
| tcp (peer_addr : SocketAddr) (local_addr : SocketAddr)
| udp (origin_addr : SocketAddr)
deriving DecidableEq, Repr

/-- The transport a `Sender` of `daytime-threads.rs` is bound to: the
accepted TCP stream, or a cloned UDP socket with the fixed reply target. -/
inductive SenderInfo
| tcp
| udp (target : SocketAddr)
deriving DecidableEq, Repr

/-- Observable events of a daytime-engine execution. `connectionMade`
records the `Sender` handed to the factory. -/
inductive YEvent
| connectionMade (sender : SenderInfo)
| onOpen (shake : Handshake)
| onRequest
| onClose
| errSent (e : IOErr)
deriving DecidableEq, Repr

/-- `Handshake::read_tcp_stream` of `daytime-threads.rs`:
`peer_addr()?` then `local_addr()?`. -/
def read_tcp_stream (ts : StreamOracle) : Except IOErr Handshake :=
  match ts.peerAddr with
  | .error e => .error e
  | .ok p =>
    match ts.localAddr with
    | .error e => .error e
    | .ok l => .ok (.tcp p l)

/-- One iteration of a TCP worker of `LajiDaytime::run`: `stream?`, then
`read_tcp_stream(&stream)?`, then `Sender::new_tcp(stream)`,
`connection_made(sender)`, `on_open(hs)`, `on_request()`, `on_close()`. -/
def tcpCycle (stream : Except IOErr StreamOracle) :
    List YEvent × Except IOErr Unit :=
  match stream with
  | .error e => ([], .error e)
  | .ok ts =>
    match read_tcp_stream ts with
    | .error e => ([], .error e)
    | .ok hs =>
      ([.connectionMade .tcp, .onOpen hs, .onRequest, .onClose], .ok ())

/-- A TCP worker thread of `LajiDaytime::run` over its `incoming()` items:
each failing cycle sends its error once to the shared queue, then the loop
continues. -/
def tcpWorker : List (Except IOErr StreamOracle) → List YEvent
| [] => []
| s :: rest =>
  match tcpCycle s with
  | (tr, .error e) => tr ++ [.errSent e] ++ tcpWorker rest
  | (tr, .ok _) => tr ++ tcpWorker rest

/-- A UDP datagram as delivered to `recv_from`: its payload bytes and the
origin address. -/
structure Datagram where
  payload : List Nat
  origin : SocketAddr
deriving DecidableEq, Repr

/-- Effect of `socket.recv_from(&mut buf)` on the worker's buffer: the
received bytes overwrite a prefix of the fixed buffer (truncated to the
buffer's length); the rest of the buffer keeps its old contents. -/
def fillBuf (buf payload : List Nat) : List Nat :=
  payload.take buf.length ++ buf.drop payload.length

/-- One iteration of the UDP worker of `LajiDaytime::run`: `recv_from` fills
the 1024-byte buffer and yields `(size, addr)`; the payload is never used —
`Handshake::from_udp_addr(addr)` and `Sender::new_udp(socket.try_clone()?,
addr)` depend on the address alone; then `connection_made(sender)`,
`on_open(hs)`, `on_request()`, `on_close()`.  Returns the buffer after the
iteration alongside the events and the result. -/
def udpCycle (buf : List Nat) (recv : Except IOErr Datagram)
    (cloneResult : Except IOErr Unit) :
    List Nat × (List YEvent × Except IOErr Unit) :=
  match recv with
  | .error e => (buf, ([], .error e))
  | .ok d =>
    let buf := fillBuf buf d.payload
    match cloneResult with
    | .error e => (buf, ([], .error e))
    | .ok _ =>
      (buf, ([.connectionMade (.udp d.origin), .onOpen (.udp d.origin),
              .onRequest, .onClose], .ok ()))

/-- The caller-visible outcome of `LajiDaytime::run`: identical queue wait
as the sync engine — the first received error is returned. -/
def runWait : List IOErr → Except IOErr Unit
| [] => .ok ()
| e :: _ => .error e

end Daytime

namespace RakPing

/-- Big-endian byte sequence of a `u64` value (as produced by `to_be`
followed by a raw 8-byte store on a little-endian host, the layout the
source's pointer arithmetic presumes). -/
def u64beBytes (x : Nat) : List Nat :=
  [x / 2 ^ 56 % 256, x / 2 ^ 48 % 256, x / 2 ^ 40 % 256, x / 2 ^ 32 % 256,
   x / 2 ^ 24 % 256, x / 2 ^ 16 % 256, x / 2 ^ 8 % 256, x % 256]

/-- Native-endian byte pair of a `u16` value (little-endian host), as stored
by the raw `*mut u16` write of the truncated `len_server_name as u16`. -/
def u16neBytes (x : Nat) : List Nat :=
  [x % 256, x / 256 % 256]

/-- Pair every byte of a list with its target buffer index, starting at
`start`. -/
def writesAt (start : Nat) : List Nat → List (Nat × Nat)
| [] => []
| b :: rest => (start, b) :: writesAt (start + 1) rest

/-- The raw stores `Sender::send_pong` of `rakping.rs` performs into its
stack buffer `[0u8; 1024]`, as (index, byte) pairs: the id byte `0x1c` at 0,
`pong.ping_time.to_be()` at 1..=8, `pong.server_guid.to_be()` at 9..=16, the
`u16` name length at 17..=18, and `copy_nonoverlapping` of the
`server_name` bytes starting at 19.  None of the stores is bounds-checked
against the 1024-byte buffer. -/
def send_pong_writes (ping_time server_guid : Nat) (server_name : List Nat) :
    List (Nat × Nat) :=
  (0, 0x1c) :: (writesAt 1 (u64beBytes ping_time) ++
    writesAt 9 (u64beBytes server_guid) ++
    writesAt 17 (u16neBytes server_name.length) ++
    writesAt 19 server_name)

end RakPing

/-! ## Observation helpers: event predicates, counting, hook projection -/

/-- Count the events of a trace satisfying a predicate. -/
def countEv {α : Type} (p : α → Bool) (tr : List α) : Nat := tr.countP p

/-- The event is a handler construction (discard engines). -/
def isCMD : DEvent → Bool
| .connectionMade => true
| _ => false

/-- The event is an `on_open` hook call (discard engines). -/
def isOpenD : DEvent → Bool
| .onOpen _ => true
| _ => false

/-- The event is an `on_close` hook call (discard engines). -/
def isCloseD : DEvent → Bool
| .onClose => true
| _ => false

/-- The event is a send to the shared error queue (discard engines). -/
def isErrSentD : DEvent → Bool
| .errSent _ => true
| _ => false

/-- The event is a read from or a write to the accepted stream. -/
def isReadWriteD : DEvent → Bool
| .sRead => true
| .sWrite => true
| _ => false

/-- The event is a lifecycle hook call (discard engines, whose `Handler`
has only `on_open` and `on_close`). -/
def isHookD : DEvent → Bool
| .onOpen _ => true
| .onClose => true
| _ => false

/-- The subsequence of lifecycle hook calls of a discard-engine trace. -/
def hooksD (tr : List DEvent) : List DEvent := tr.filter isHookD

/-- The event is a handler construction (daytime engine). -/
def isCMY : Daytime.YEvent → Bool
| .connectionMade _ => true
| _ => false

/-- The event is an `on_close` hook call (daytime engine). -/
def isCloseY : Daytime.YEvent → Bool
| .onClose => true
| _ => false

/-- The event is a send to the shared error queue (daytime engine). -/
def isErrSentY : Daytime.YEvent → Bool
| .errSent _ => true
| _ => false

/-- The event is a lifecycle hook call (daytime engine). -/
def isHookY : Daytime.YEvent → Bool
| .onOpen _ => true
| .onRequest => true
| .onClose => true
| _ => false

/-- The subsequence of lifecycle hook calls of a daytime-engine trace. -/
def hooksY (tr : List Daytime.YEvent) : List Daytime.YEvent :=
  tr.filter isHookY

/-- Both address queries of the stream succeed, i.e. handshake extraction
succeeds on this stream. -/
def hsOk (ts : StreamOracle) : Bool :=
  match ts.peerAddr, ts.localAddr with
  | .ok _, .ok _ => true
  | _, _ => false

/-- The accept succeeded and handshake extraction succeeds — exactly the
condition under which a discard per-connection cycle returns `Ok`. -/
def acceptedOk : Except IOErr StreamOracle → Bool
| .error _ => false
| .ok ts => hsOk ts

/-- The accept results a listener yields when `pending` connections are
queued on it: each pending connection in order, then `WouldBlock`. -/
def pendingScript (pending : List StreamOracle) :
    List (Except IOErr StreamOracle) :=
  pending.map Except.ok ++ [Except.error IOErr.wouldBlock]

end Laji

namespace Laji

/-- C7: the thread engine's `run` blocks on the shared mpsc queue and
returns the first error received; errors enqueued after the first never
influence the result; and `run` leaves the spawned workers untouched (no
stop, join or cancel exists in the source). -/
theorem c7_run_returns_first_error (e : IOErr) (rest1 rest2 : List IOErr)
    (workers : List Nat) :
    DiscardSync.runWait (e :: rest1) = .error e ∧
    DiscardSync.runWait (e :: rest1) = DiscardSync.runWait (e :: rest2) ∧
    (DiscardSync.runOutcome workers (e :: rest1)).2 = workers ∧
    Daytime.runWait (e :: rest1) = .error e := by
  refine ⟨rfl, rfl, rfl, rfl⟩

/-- C10: the daytime UDP worker's handler invocation depends only on the
datagram's origin address, never on its payload: two datagrams from the same
origin with arbitrary different payloads produce identical events (same
Handshake, same Sender destination, same hook sequence) and the same result;
and the events of a successful cycle are exactly the address-derived
lifecycle. -/
theorem c10_udp_payload_independent (buf p1 p2 : List Nat)
    (addr : SocketAddr) (cloneResult : Except IOErr Unit) :
    (Daytime.udpCycle buf (.ok ⟨p1, addr⟩) cloneResult).2 =
      (Daytime.udpCycle buf (.ok ⟨p2, addr⟩) cloneResult).2 ∧
    (Daytime.udpCycle buf (.ok ⟨p1, addr⟩) (.ok ())).2 =
      ([.connectionMade (.udp addr), .onOpen (.udp addr),
        .onRequest, .onClose], .ok ()) := by
  refine ⟨?_, rfl⟩
  cases cloneResult <;> rfl

/-- C4 counterexample: in the sync discard engine a `Handler` is constructed
even for a failed accept attempt — `process_one_stream` on an accept error
still performs exactly one `connection_made` call before propagating the
error, contradicting "no Handler is constructed for an accept attempt that
fails". -/
theorem c4_handler_made_on_failed_accept :
    countEv isCMD
        (DiscardSync.process_one_stream (.error (IOErr.fatal 104))).1 = 1 ∧
    (DiscardSync.process_one_stream (.error (IOErr.fatal 104))).2 =
      .error (IOErr.fatal 104) := by
  exact ⟨rfl, rfl⟩

/-- C4 (amended): exactly one `Handler` is constructed per unit that reaches
handler construction, never more: the sync discard engine calls
`connection_made` exactly once per accept-loop iteration — including
iterations whose accept attempt failed, since it is called before the accept
result is examined — and likewise the basic `lib.rs` engine; the mio engine
exactly once per accepted connection; the daytime engine exactly once per
accepted unit whose handshake extraction (and, for datagrams, socket clone)
succeeds and zero times otherwise. -/
theorem c4_connection_made_exactly_once (s : Except IOErr StreamOracle)
    (ts : StreamOracle) (rest : List (Except IOErr StreamOracle))
    (e : IOErr) (buf : List Nat) (d : Daytime.Datagram) :
    countEv isCMD (DiscardSync.process_one_stream s).1 = 1 ∧
    countEv isCMD (DiscardMio.process_one_stream ts).1 = 1 ∧
    countEv isCMD (LibDiscard.run (s :: rest)).1 =
      1 + (if acceptedOk s then countEv isCMD (LibDiscard.run rest).1
           else 0) ∧
    countEv isCMY (Daytime.tcpCycle (.ok ts)).1 =
      (if hsOk ts then 1 else 0) ∧
    countEv isCMY (Daytime.tcpCycle (.error e)).1 = 0 ∧
    countEv isCMY ((Daytime.udpCycle buf (.ok d) (.ok ())).2.1) = 1 ∧
    countEv isCMY ((Daytime.udpCycle buf (.ok d) (.error e)).2.1) = 0 := by
  refine ⟨?_, ?_, ?_, ?_, rfl, rfl, rfl⟩
  · rcases s with es | ts2
    · rfl
    · rcases hp : ts2.peerAddr with ep | p <;>
        rcases hl : ts2.localAddr with el | l <;>
        simp [DiscardSync.process_one_stream, readStream, hp, hl,
          countEv, isCMD]
  · rcases hp : ts.peerAddr with ep | p <;>
      rcases hl : ts.localAddr with el | l <;>
      simp [DiscardMio.process_one_stream, readStream, hp, hl,
        countEv, isCMD]
  · rcases s with es | ts2
    · simp [LibDiscard.run, acceptedOk, countEv, isCMD]
    · rcases hp : ts2.peerAddr with ep | p <;>
        rcases hl : ts2.localAddr with el | l <;>
        simp [LibDiscard.run, readStream, hp, hl, acceptedOk, hsOk,
          countEv, isCMD]
      omega
  · rcases hp : ts.peerAddr with ep | p <;>
      rcases hl : ts.localAddr with el | l <;>
      simp [Daytime.tcpCycle, Daytime.read_tcp_stream, hp, hl, hsOk,
        countEv, isCMY]

/-- C1 counterexample: an accepted connection whose handshake extraction
fails (here: `peer_addr()` returns an error, as happens when the peer has
already reset) runs `on_open` zero times and `on_close` zero times in the
sync discard engine, contradicting "`onOpen` is invoked exactly once per
accepted unit" and "`onClose` is invoked exactly once". -/
theorem c1_hooks_skipped_on_handshake_failure :
    countEv isOpenD
        (DiscardSync.process_one_stream
          (.ok ⟨.error (IOErr.fatal 104), .ok ⟨0, 0⟩⟩)).1 = 0 ∧
    countEv isCloseD
        (DiscardSync.process_one_stream
          (.ok ⟨.error (IOErr.fatal 104), .ok ⟨0, 0⟩⟩)).1 = 0 ∧
    (DiscardSync.process_one_stream
          (.ok ⟨.error (IOErr.fatal 104), .ok ⟨0, 0⟩⟩)).2 =
      .error (IOErr.fatal 104) := by
  exact ⟨rfl, rfl, rfl⟩

/-- C1 (amended): for every accepted connection or datagram whose handshake
extraction succeeds, the lifecycle hooks run exactly in the order `on_open`,
then zero or more `on_request` calls, then `on_close`, each end hook exactly
once: the discard engines produce exactly `[on_open, on_close]` (zero
`on_request`), the daytime engine exactly `[on_open, on_request, on_close]`
for both an accepted TCP stream and a received datagram (whose handshake,
derived from the origin address alone, cannot fail).  If handshake
extraction fails after a successful accept, no lifecycle hook runs at all
for that unit, in every engine. -/
theorem c1_lifecycle_hook_order (ts : StreamOracle) (p l : SocketAddr)
    (hp : ts.peerAddr = .ok p) (hl : ts.localAddr = .ok l)
    (buf : List Nat) (d : Daytime.Datagram)
    (tsBad : StreamOracle) (hbad : hsOk tsBad = false) :
    hooksD (DiscardSync.process_one_stream (.ok ts)).1 =
      [.onOpen ⟨p, l⟩, .onClose] ∧
    hooksD (DiscardMio.process_one_stream ts).1 =
      [.onOpen ⟨p, l⟩, .onClose] ∧
    hooksD (LibDiscard.run [.ok ts]).1 = [.onOpen ⟨p, l⟩, .onClose] ∧
    hooksY (Daytime.tcpCycle (.ok ts)).1 =
      [.onOpen (.tcp p l), .onRequest, .onClose] ∧
    hooksY ((Daytime.udpCycle buf (.ok d) (.ok ())).2.1) =
      [.onOpen (.udp d.origin), .onRequest, .onClose] ∧
    hooksD (DiscardSync.process_one_stream (.ok tsBad)).1 = [] ∧
    hooksD (DiscardMio.process_one_stream tsBad).1 = [] ∧
    hooksD (LibDiscard.run [.ok tsBad]).1 = [] ∧
    hooksY (Daytime.tcpCycle (.ok tsBad)).1 = [] := by
  have hfail : hooksD (DiscardSync.process_one_stream (.ok tsBad)).1 = [] ∧
      hooksD (DiscardMio.process_one_stream tsBad).1 = [] ∧
      hooksD (LibDiscard.run [.ok tsBad]).1 = [] ∧
      hooksY (Daytime.tcpCycle (.ok tsBad)).1 = [] := by
    rcases hbp : tsBad.peerAddr with ep | pb <;>
      rcases hbl : tsBad.localAddr with el | lb <;>
      simp [hsOk, hbp, hbl] at hbad <;>
      refine ⟨?_, ?_, ?_, ?_⟩ <;>
      simp [DiscardSync.process_one_stream, DiscardMio.process_one_stream,
        LibDiscard.run, Daytime.tcpCycle, Daytime.read_tcp_stream,
        readStream, hbp, hbl, hooksD, isHookD, hooksY, isHookY]
  obtain ⟨hf1, hf2, hf3, hf4⟩ := hfail
  refine ⟨?_, ?_, ?_, ?_, ?_, hf1, hf2, hf3, hf4⟩ <;>
    simp [DiscardSync.process_one_stream, DiscardMio.process_one_stream,
      LibDiscard.run, Daytime.tcpCycle, Daytime.read_tcp_stream,
      Daytime.udpCycle, readStream, hp, hl, hooksD, isHookD, hooksY,
      isHookY]

/-- Helper: counting distributes over trace concatenation. -/
theorem countEv_append {α : Type} (p : α → Bool) (a b : List α) :
    countEv p (a ++ b) = countEv p a + countEv p b :=
  List.countP_append p a b

/-- Helper: on a stream whose handshake extraction succeeds, the mio
per-connection cycle performs exactly the accept-to-close event sequence
and returns `Ok`. -/
theorem process_one_stream_mio_ok (ts : StreamOracle) (h : hsOk ts = true) :
    ∃ hs, DiscardMio.process_one_stream ts =
      ([.connectionMade, .getPeerAddr, .getLocalAddr, .onOpen hs, .sDrop,
        .onClose], .ok ()) := by
  rcases hp : ts.peerAddr with ep | p <;>
    rcases hl : ts.localAddr with el | l <;>
    simp [hsOk, hp, hl] at h
  exact ⟨⟨p, l⟩, by simp [DiscardMio.process_one_stream, readStream, hp, hl]⟩

/-- Helper: draining a listener with `pending` queued good connections
(followed by `WouldBlock`) yields one `on_open` and one `on_close` per
pending connection and terminates with `Ok`. -/
theorem drainAccepts_pending_ok (pending : List StreamOracle)
    (h : ∀ ts ∈ pending, hsOk ts = true) :
    countEv isOpenD (DiscardMio.drainAccepts (pendingScript pending)).1 =
      pending.length ∧
    countEv isCloseD (DiscardMio.drainAccepts (pendingScript pending)).1 =
      pending.length ∧
    (DiscardMio.drainAccepts (pendingScript pending)).2 = .ok () := by
  induction pending with
  | nil => exact ⟨rfl, rfl, rfl⟩
  | cons ts rest ih =>
    obtain ⟨hs, hps⟩ :=
      process_one_stream_mio_ok ts (h ts (List.mem_cons_self ts rest))
    obtain ⟨ih1, ih2, ih3⟩ := ih (fun t ht => h t (List.mem_cons_of_mem ts ht))
    have hstep : pendingScript (ts :: rest) =
        Except.ok ts :: pendingScript rest := by
      simp [pendingScript]
    rcases hda : DiscardMio.drainAccepts (pendingScript rest) with ⟨tr2, r2⟩
    rw [hda] at ih1 ih2 ih3
    rw [hstep]
    simp [DiscardMio.drainAccepts, hps, hda, countEv, List.countP_cons,
      List.countP_append, isOpenD, isCloseD] at ih1 ih2 ⊢
    exact ⟨by omega, by omega, by simpa using ih3⟩

/-- C2: after one readiness event for a listener with K pending connections,
the reactor drains it in a tight accept loop until `WouldBlock`, fully
processing each connection before the next accept, producing exactly K
`on_open` and K `on_close` calls; and the engine's next readiness wait call
happens only after all of them — one poll round's events are exactly the
drain's events, followed by the next rounds'. -/
theorem c2_reactor_drains_all_pending (pending : List StreamOracle)
    (rest : List DiscardMio.PollRound)
    (h : ∀ ts ∈ pending, hsOk ts = true) :
    countEv isOpenD (DiscardMio.drainAccepts (pendingScript pending)).1 =
      pending.length ∧
    countEv isCloseD (DiscardMio.drainAccepts (pendingScript pending)).1 =
      pending.length ∧
    (DiscardMio.drainAccepts (pendingScript pending)).2 = .ok () ∧
    DiscardMio.runLoop (⟨.ok [0], [pendingScript pending]⟩ :: rest) =
      ((DiscardMio.drainAccepts (pendingScript pending)).1 ++
        (DiscardMio.runLoop rest).1,
       (DiscardMio.runLoop rest).2) := by
  obtain ⟨h1, h2, h3⟩ := drainAccepts_pending_ok pending h
  refine ⟨h1, h2, h3, ?_⟩
  rcases hda : DiscardMio.drainAccepts (pendingScript pending) with ⟨tr, r⟩
  rw [hda] at h3
  subst h3
  rcases hrl : DiscardMio.runLoop rest with ⟨tr2, r2⟩
  simp [DiscardMio.runLoop, DiscardMio.processEvents, hda, hrl]

/-- C2 witness: two pending connections on the single registered listener
are both accepted and processed before the next poll call. -/
theorem c2_reactor_drains_all_pending_witness :
    countEv isOpenD (DiscardMio.drainAccepts
      (pendingScript [⟨.ok ⟨1, 1⟩, .ok ⟨2, 2⟩⟩, ⟨.ok ⟨3, 3⟩, .ok ⟨4, 4⟩⟩])).1
      = 2 ∧
    countEv isCloseD (DiscardMio.drainAccepts
      (pendingScript [⟨.ok ⟨1, 1⟩, .ok ⟨2, 2⟩⟩, ⟨.ok ⟨3, 3⟩, .ok ⟨4, 4⟩⟩])).1
      = 2 ∧
    (DiscardMio.drainAccepts
      (pendingScript [⟨.ok ⟨1, 1⟩, .ok ⟨2, 2⟩⟩, ⟨.ok ⟨3, 3⟩, .ok ⟨4, 4⟩⟩])).2
      = .ok () ∧
    DiscardMio.runLoop (⟨.ok [0],
        [pendingScript [⟨.ok ⟨1, 1⟩, .ok ⟨2, 2⟩⟩, ⟨.ok ⟨3, 3⟩, .ok ⟨4, 4⟩⟩]]⟩
        :: []) =
      ((DiscardMio.drainAccepts
        (pendingScript [⟨.ok ⟨1, 1⟩, .ok ⟨2, 2⟩⟩, ⟨.ok ⟨3, 3⟩, .ok ⟨4, 4⟩⟩])).1
        ++ (DiscardMio.runLoop []).1,
       (DiscardMio.runLoop []).2) :=
  c2_reactor_drains_all_pending
    [⟨.ok ⟨1, 1⟩, .ok ⟨2, 2⟩⟩, ⟨.ok ⟨3, 3⟩, .ok ⟨4, 4⟩⟩] [] (by decide)

/-- C5: in the reactor engine a `WouldBlock` from `accept` only breaks the
drain loop — the items behind it are never examined and no error is
surfaced; any other accept error is returned as the drain's (hence `run`'s)
error; a readiness-wait (`poll`) error terminates `run` immediately with
that error and no listener is serviced afterwards; and a fatal accept error
likewise terminates the whole `run` immediately. -/
theorem c5_would_block_vs_fatal (tail : List (Except IOErr StreamOracle))
    (e ep : IOErr) (he : e ≠ IOErr.wouldBlock)
    (scripts : List (List (Except IOErr StreamOracle)))
    (rounds : List DiscardMio.PollRound) :
    DiscardMio.drainAccepts (.error IOErr.wouldBlock :: tail) =
      ([], .ok ()) ∧
    DiscardMio.drainAccepts (.error e :: tail) = ([], .error e) ∧
    DiscardMio.runLoop (⟨.error ep, scripts⟩ :: rounds) = ([], .error ep) ∧
    DiscardMio.runLoop (⟨.ok [0], [.error e :: tail]⟩ :: rounds) =
      ([], .error e) := by
  have hda : DiscardMio.drainAccepts (.error e :: tail) = ([], .error e) := by
    rcases e with _ | n
    · exact absurd rfl he
    · rfl
  refine ⟨rfl, hda, rfl, ?_⟩
  simp [DiscardMio.runLoop, DiscardMio.processEvents, hda]

/-- C5 witness: the error policy at concrete inputs — a connection-reset
accept error (not would-block) on the only listener. -/
theorem c5_would_block_vs_fatal_witness :
    DiscardMio.drainAccepts
        (.error IOErr.wouldBlock :: [.error (IOErr.fatal 104)]) =
      ([], .ok ()) ∧
    DiscardMio.drainAccepts
        (.error (IOErr.fatal 104) :: [.error (IOErr.fatal 104)]) =
      ([], .error (IOErr.fatal 104)) ∧
    DiscardMio.runLoop (⟨.error (IOErr.fatal 9), []⟩ ::
        [⟨.ok [0], [[]]⟩]) = ([], .error (IOErr.fatal 9)) ∧
    DiscardMio.runLoop
        (⟨.ok [0], [.error (IOErr.fatal 104) :: [.error (IOErr.fatal 104)]]⟩
          :: [⟨.ok [0], [[]]⟩]) =
      ([], .error (IOErr.fatal 104)) :=
  c5_would_block_vs_fatal [.error (IOErr.fatal 104)] (IOErr.fatal 104)
    (IOErr.fatal 9) (by decide) [] [⟨.ok [0], [[]]⟩]

/-- C3: a failing `Builder::bind` (in either engine) propagates the error —
the chained builder value with the new entry never exists, so no listener
entry reaches any eventual engine — while `build` on the previously
successful listeners transfers exactly those, and an engine over the single
successful listener still serves it normally: a connection on it runs the
full lifecycle in both the sync worker and the reactor loop. -/
theorem c3_failed_bind_leaves_no_entry (bsync : DiscardSync.Builder)
    (bmio : DiscardMio.Builder) (e : IOErr) (lid : Nat)
    (ts : StreamOracle) (p q : SocketAddr)
    (hp : ts.peerAddr = .ok p) (hq : ts.localAddr = .ok q) :
    DiscardSync.Builder.bind bsync (.error e) = .error e ∧
    DiscardMio.Builder.bind bmio (.error e) = .error e ∧
    (DiscardSync.Builder.build ⟨[lid]⟩).tcp = [lid] ∧
    DiscardMio.from_tcp [lid] = [lid] ∧
    hooksD (DiscardSync.workerLoop [.ok ts]) = [.onOpen ⟨p, q⟩, .onClose] ∧
    hooksD (DiscardMio.runLoop [⟨.ok [0], [pendingScript [ts]]⟩]).1 =
      [.onOpen ⟨p, q⟩, .onClose] := by
  refine ⟨rfl, rfl, rfl, rfl, ?_, ?_⟩
  · simp [DiscardSync.workerLoop, DiscardSync.process_one_stream,
      readStream, hp, hq, hooksD, isHookD]
  · simp [DiscardMio.runLoop, DiscardMio.processEvents, pendingScript,
      DiscardMio.drainAccepts, DiscardMio.process_one_stream,
      readStream, hp, hq, hooksD, isHookD]

/-- C3 witness: the bind-failure isolation at concrete builders, error and
stream. -/
theorem c3_failed_bind_leaves_no_entry_witness :
    DiscardSync.Builder.bind ⟨[7]⟩ (.error (IOErr.fatal 98)) =
      .error (IOErr.fatal 98) ∧
    DiscardMio.Builder.bind ⟨[7]⟩ (.error (IOErr.fatal 98)) =
      .error (IOErr.fatal 98) ∧
    (DiscardSync.Builder.build ⟨[7]⟩).tcp = [7] ∧
    DiscardMio.from_tcp [7] = [7] ∧
    hooksD (DiscardSync.workerLoop [.ok ⟨.ok ⟨1, 2⟩, .ok ⟨3, 4⟩⟩]) =
      [.onOpen ⟨⟨1, 2⟩, ⟨3, 4⟩⟩, .onClose] ∧
    hooksD (DiscardMio.runLoop
        [⟨.ok [0], [pendingScript [⟨.ok ⟨1, 2⟩, .ok ⟨3, 4⟩⟩]]⟩]).1 =
      [.onOpen ⟨⟨1, 2⟩, ⟨3, 4⟩⟩, .onClose] :=
  c3_failed_bind_leaves_no_entry ⟨[7]⟩ ⟨[7]⟩ (IOErr.fatal 98) 7
    ⟨.ok ⟨1, 2⟩, .ok ⟨3, 4⟩⟩ ⟨1, 2⟩ ⟨3, 4⟩ rfl rfl

/-- Helper: aggregate counts of a sync discard worker over its accept
items — one error-queue send per failing item, one handler construction per
item (failed or not). -/
theorem syncWorker_counts (items : List (Except IOErr StreamOracle)) :
    countEv isErrSentD (DiscardSync.workerLoop items) =
      (items.filter (fun s => !acceptedOk s)).length ∧
    countEv isCMD (DiscardSync.workerLoop items) = items.length := by
  induction items with
  | nil => exact ⟨rfl, rfl⟩
  | cons s rest ih =>
    obtain ⟨ih1, ih2⟩ := ih
    rcases s with es | ts
    · simp only [DiscardSync.workerLoop, DiscardSync.process_one_stream,
        countEv, List.countP_append, List.countP_cons, List.filter_cons,
        acceptedOk] at ih1 ih2 ⊢
      simp [isErrSentD, isCMD, ih1, ih2]
      omega
    · rcases hp : ts.peerAddr with ep | p <;>
        rcases hl : ts.localAddr with el | l <;>
        · simp only [DiscardSync.workerLoop, DiscardSync.process_one_stream,
            readStream, hp, hl, countEv, List.countP_append,
            List.countP_cons, List.filter_cons, acceptedOk, hsOk]
              at ih1 ih2 ⊢
          simp [isErrSentD, isCMD, ih1, ih2, hp, hl]
          omega

/-- Helper: aggregate counts of a daytime TCP worker over its accept
items — one error-queue send per failing item, one `on_close` per
successful item. -/
theorem daytimeWorker_counts (items : List (Except IOErr StreamOracle)) :
    countEv isErrSentY (Daytime.tcpWorker items) =
      (items.filter (fun s => !acceptedOk s)).length ∧
    countEv isCloseY (Daytime.tcpWorker items) =
      (items.filter acceptedOk).length := by
  induction items with
  | nil => exact ⟨rfl, rfl⟩
  | cons s rest ih =>
    obtain ⟨ih1, ih2⟩ := ih
    rcases s with es | ts
    · simp only [Daytime.tcpWorker, Daytime.tcpCycle, countEv,
        List.countP_append, List.countP_cons, List.filter_cons,
        acceptedOk] at ih1 ih2 ⊢
      simp [isErrSentY, isCloseY, ih1, ih2]
      omega
    · rcases hp : ts.peerAddr with ep | p <;>
        rcases hl : ts.localAddr with el | l <;>
        · simp only [Daytime.tcpWorker, Daytime.tcpCycle,
            Daytime.read_tcp_stream, hp, hl, countEv, List.countP_append,
            List.countP_cons, List.filter_cons, acceptedOk, hsOk]
              at ih1 ih2 ⊢
          simp [isErrSentY, isCloseY, ih1, ih2, hp, hl]
          omega

/-- C6: in the thread-per-listener engines, every failing item (failed
accept, failed handshake extraction, or failed lifecycle) results in exactly
one send to the shared error queue — the worker contributes one queue send
per failing item in aggregate — and the worker continues its accept loop:
every item of the loop is still processed (one handler construction per item
in the sync engine, one `on_close` per successful item in the daytime
engine), so one connection's failure does not stop subsequent service. -/
theorem c6_worker_sends_once_and_continues
    (items ditems : List (Except IOErr StreamOracle)) :
    countEv isErrSentD (DiscardSync.workerLoop items) =
      (items.filter (fun s => !acceptedOk s)).length ∧
    countEv isCMD (DiscardSync.workerLoop items) = items.length ∧
    countEv isErrSentY (Daytime.tcpWorker ditems) =
      (ditems.filter (fun s => !acceptedOk s)).length ∧
    countEv isCloseY (Daytime.tcpWorker ditems) =
      (ditems.filter acceptedOk).length := by
  obtain ⟨h1, h2⟩ := syncWorker_counts items
  obtain ⟨h3, h4⟩ := daytimeWorker_counts ditems
  exact ⟨h1, h2, h3, h4⟩

/-- Helper: the basic `lib.rs` engine performs no stream read or write over
any run. -/
theorem libRun_no_read_write (incoming : List (Except IOErr StreamOracle)) :
    countEv isReadWriteD (LibDiscard.run incoming).1 = 0 := by
  induction incoming with
  | nil => rfl
  | cons s rest ih =>
    rcases s with es | ts
    · rfl
    · rcases hp : ts.peerAddr with ep | p <;>
        rcases hl : ts.localAddr with el | l <;>
        · simp only [LibDiscard.run, readStream, hp, hl, countEv,
            List.countP_append, List.countP_cons] at ih ⊢
          simp [isReadWriteD, ih]

/-- C8: no discard engine ever reads from or writes to an accepted stream:
every per-connection trace of the sync, mio and basic engines contains zero
stream reads and zero stream writes, and on the success path the trace is
exactly accept-handshake-hooks-release: handler construction, the two
address queries, `on_open`, the stream drop (release), `on_close`. -/
theorem c8_discard_no_read_no_write (s : Except IOErr StreamOracle)
    (ts2 : StreamOracle) (incoming : List (Except IOErr StreamOracle))
    (ts : StreamOracle) (p q : SocketAddr)
    (hp : ts.peerAddr = .ok p) (hq : ts.localAddr = .ok q) :
    countEv isReadWriteD (DiscardSync.process_one_stream s).1 = 0 ∧
    countEv isReadWriteD (DiscardMio.process_one_stream ts2).1 = 0 ∧
    countEv isReadWriteD (LibDiscard.run incoming).1 = 0 ∧
    DiscardSync.process_one_stream (.ok ts) =
      ([.connectionMade, .getPeerAddr, .getLocalAddr, .onOpen ⟨p, q⟩,
        .sDrop, .onClose], .ok ()) ∧
    DiscardMio.process_one_stream ts =
      ([.connectionMade, .getPeerAddr, .getLocalAddr, .onOpen ⟨p, q⟩,
        .sDrop, .onClose], .ok ()) := by
  refine ⟨?_, ?_, libRun_no_read_write incoming, ?_, ?_⟩
  · rcases s with es | ts3
    · rfl
    · rcases hp3 : ts3.peerAddr with ep | p3 <;>
        rcases hl3 : ts3.localAddr with el | l3 <;>
        simp [DiscardSync.process_one_stream, readStream, hp3, hl3,
          countEv, isReadWriteD]
  · rcases hp2 : ts2.peerAddr with ep | p2 <;>
      rcases hl2 : ts2.localAddr with el | l2 <;>
      simp [DiscardMio.process_one_stream, readStream, hp2, hl2,
        countEv, isReadWriteD]
  · simp [DiscardSync.process_one_stream, readStream, hp, hq]
  · simp [DiscardMio.process_one_stream, readStream, hp, hq]

/-- C8 witness: the frame property at a concrete accepted stream. -/
theorem c8_discard_no_read_no_write_witness :
    countEv isReadWriteD
      (DiscardSync.process_one_stream (.error (IOErr.fatal 104))).1 = 0 ∧
    countEv isReadWriteD
      (DiscardMio.process_one_stream ⟨.ok ⟨1, 2⟩, .ok ⟨3, 4⟩⟩).1 = 0 ∧
    countEv isReadWriteD (LibDiscard.run [.ok ⟨.ok ⟨1, 2⟩, .ok ⟨3, 4⟩⟩]).1
      = 0 ∧
    DiscardSync.process_one_stream (.ok ⟨.ok ⟨1, 2⟩, .ok ⟨3, 4⟩⟩) =
      ([.connectionMade, .getPeerAddr, .getLocalAddr,
        .onOpen ⟨⟨1, 2⟩, ⟨3, 4⟩⟩, .sDrop, .onClose], .ok ()) ∧
    DiscardMio.process_one_stream ⟨.ok ⟨1, 2⟩, .ok ⟨3, 4⟩⟩ =
      ([.connectionMade, .getPeerAddr, .getLocalAddr,
        .onOpen ⟨⟨1, 2⟩, ⟨3, 4⟩⟩, .sDrop, .onClose], .ok ()) :=
  c8_discard_no_read_no_write (.error (IOErr.fatal 104))
    ⟨.ok ⟨1, 2⟩, .ok ⟨3, 4⟩⟩ [.ok ⟨.ok ⟨1, 2⟩, .ok ⟨3, 4⟩⟩]
    ⟨.ok ⟨1, 2⟩, .ok ⟨3, 4⟩⟩ ⟨1, 2⟩ ⟨3, 4⟩ rfl rfl

/-- Helper: the buffer indices touched by a run of byte writes starting at
`start` are exactly `start, start+1, …`. -/
theorem writesAt_map_fst (bytes : List Nat) (start : Nat) :
    (RakPing.writesAt start bytes).map Prod.fst =
      List.range' start bytes.length := by
  induction bytes generalizing start with
  | nil => rfl
  | cons b rest ih => simp [RakPing.writesAt, List.range'_succ, ih]

/-- C9: `Sender::send_pong` performs raw unchecked stores into its fixed
1024-byte buffer — an id byte at offset 0, two 8-byte big-endian `u64`
fields at offsets 1 and 9, a `u16` length at offset 17, and the
`server_name` bytes copied from offset 19 on — and every store lands inside
the buffer precisely when `server_name` is at most 1005 bytes long. -/
theorem c9_send_pong_stays_in_bounds (ping_time server_guid : Nat)
    (server_name : List Nat) :
    (∀ w ∈ RakPing.send_pong_writes ping_time server_guid server_name,
        w.1 < 1024) ↔ server_name.length ≤ 1005 := by
  have hmap : (RakPing.send_pong_writes ping_time server_guid
      server_name).map Prod.fst =
      0 :: (List.range' 1 8 ++ (List.range' 9 8 ++ (List.range' 17 2 ++
        List.range' 19 server_name.length))) := by
    simp [RakPing.send_pong_writes, RakPing.u64beBytes, RakPing.u16neBytes,
      writesAt_map_fst]
  constructor
  · intro h
    by_contra hlen
    have hmem : (1024 : Nat) ∈ (RakPing.send_pong_writes ping_time
        server_guid server_name).map Prod.fst := by
      rw [hmap]
      simp only [List.mem_cons, List.mem_append, List.mem_range'_1]
      omega
    obtain ⟨w, hw, hfst⟩ := List.mem_map.mp hmem
    have := h w hw
    omega
  · intro hlen w hw
    have hmem : w.1 ∈ (RakPing.send_pong_writes ping_time server_guid
        server_name).map Prod.fst := List.mem_map_of_mem Prod.fst hw
    rw [hmap] at hmem
    simp only [List.mem_cons, List.mem_append, List.mem_range'_1] at hmem
    omega

/-- C1 witness: the amended lifecycle-order theorem at a concrete accepted
stream, a concrete datagram, and a concrete stream whose handshake
extraction fails. -/
theorem c1_lifecycle_hook_order_witness :
    hooksD (DiscardSync.process_one_stream
        (.ok ⟨.ok ⟨1, 2⟩, .ok ⟨3, 4⟩⟩)).1 =
      [.onOpen ⟨⟨1, 2⟩, ⟨3, 4⟩⟩, .onClose] ∧
    hooksD (DiscardMio.process_one_stream ⟨.ok ⟨1, 2⟩, .ok ⟨3, 4⟩⟩).1 =
      [.onOpen ⟨⟨1, 2⟩, ⟨3, 4⟩⟩, .onClose] ∧
    hooksD (LibDiscard.run [.ok ⟨.ok ⟨1, 2⟩, .ok ⟨3, 4⟩⟩]).1 =
      [.onOpen ⟨⟨1, 2⟩, ⟨3, 4⟩⟩, .onClose] ∧
    hooksY (Daytime.tcpCycle (.ok ⟨.ok ⟨1, 2⟩, .ok ⟨3, 4⟩⟩)).1 =
      [.onOpen (.tcp ⟨1, 2⟩ ⟨3, 4⟩), .onRequest, .onClose] ∧
    hooksY ((Daytime.udpCycle [0, 0, 0] (.ok ⟨[9, 9], ⟨5, 6⟩⟩)
        (.ok ())).2.1) =
      [.onOpen (.udp ⟨5, 6⟩), .onRequest, .onClose] ∧
    hooksD (DiscardSync.process_one_stream
        (.ok ⟨.error (IOErr.fatal 104), .ok ⟨0, 0⟩⟩)).1 = [] ∧
    hooksD (DiscardMio.process_one_stream
        ⟨.error (IOErr.fatal 104), .ok ⟨0, 0⟩⟩).1 = [] ∧
    hooksD (LibDiscard.run
        [.ok ⟨.error (IOErr.fatal 104), .ok ⟨0, 0⟩⟩]).1 = [] ∧
    hooksY (Daytime.tcpCycle
        (.ok ⟨.error (IOErr.fatal 104), .ok ⟨0, 0⟩⟩)).1 = [] :=
  c1_lifecycle_hook_order ⟨.ok ⟨1, 2⟩, .ok ⟨3, 4⟩⟩ ⟨1, 2⟩ ⟨3, 4⟩ rfl rfl
    [0, 0, 0] ⟨[9, 9], ⟨5, 6⟩⟩
    ⟨.error (IOErr.fatal 104), .ok ⟨0, 0⟩⟩ (by decide)

end Laji
